import Mathlib

/-!
Verification of the llm-transaction-finder repository against its design
specification.

The repository splits into a React/TypeScript frontend (present under
src/frontend and src/unnamed) and a FastAPI backend (backend/main.py,
backend/data_processor.py, backend/llm_analyzer.py) that holds the pattern
miners and the LLM analysis orchestrator.  The backend sources are not part
of the repository snapshot; where a property is decided by backend code we
model the missing component from the specification text (such definitions
carry a doc comment starting with `Modelled from the spec:`).  Everything
else is translated from the frontend sources:

- src/frontend/src/types/index.ts       (the data model)
- src/unnamed/part_000                  (services/api.ts, the API client)
- src/frontend/src/components/AIAnalysis.tsx
  (two concatenated components: AIAnalysis, then PatternAnalysis with the
   presentation-layer severity thresholds)
- src/unnamed/part_001 / src/frontend/src/App.tsx (health check consumer)

Numbers: TypeScript `number` amounts and time differences are modelled as
rationals (ℚ), counts and identifiers as naturals (ℕ), timestamps as integer
epoch seconds (ℤ; the source serializes them as ISO strings whose
lexicographic order agrees with chronological order).
-/

/-- Risk levels of the source type `'high' | 'medium' | 'low'`
(src/frontend/src/types/index.ts). -/
inductive RiskLevel where
  | high
  | medium
  | low
deriving DecidableEq, Repr

/-- Numeric severity of a risk level, ordering high > medium > low. -/
def RiskLevel.sev : RiskLevel → Nat
  | .high => 2
  | .medium => 1
  | .low => 0

/-- The more severe of two risk levels under high > medium > low. -/
def maxRisk (a b : RiskLevel) : RiskLevel :=
  if b.sev ≤ a.sev then a else b

/-- The `Transaction` record of src/frontend/src/types/index.ts (lines 3-30).
`created_at` and `updated_at` are modelled as integer epoch seconds; `image`
(typed `any` in the source, only ever absent) as `Option Unit`. -/
structure Transaction where
  transaction_id : Nat
  user_id : Nat
  user_name : String
  user_username : String
  user_mobile : Nat
  reciever_id : Nat
  reciever_name : String
  reciever_mobile : Nat
  amount : ℚ
  total_amount : ℚ
  currency : String
  settleable_amount : ℚ
  minimum_amount : ℚ
  order_status : String
  payment_status : String
  refund_status : String
  bill_type : String
  pg_transaction_id : String
  specific_step_transaction_id : Option Nat
  payment_vendor : String
  utr_number : String
  image : Option Unit
  remarks : String
  reference_id : String
  created_at : Int
  updated_at : Int
deriving DecidableEq, Repr

/-- The `SuspiciousThread` record of src/frontend/src/types/index.ts
(lines 32-43). -/
structure SuspiciousThread where
  thread_id : String
  description : String
  participants : List String
  risk_level : RiskLevel
  evidence : List String
  transactions_involved : List String
  potential_violation : String
  pattern_type : Option String
  confidence_score : Option ℚ
  recommended_action : Option String
deriving DecidableEq, Repr

/-- The `PatternAnalysis` record of src/frontend/src/types/index.ts
(lines 45-50). -/
structure PatternAnalysis where
  threads : List SuspiciousThread
  risk_level : RiskLevel
  summary : String
  key_insights : Option (List String)
deriving DecidableEq, Repr

/-- The `OverallAssessment` record of src/frontend/src/types/index.ts
(lines 52-63); the `pattern_summary` string-keyed map is modelled as an
association list. -/
structure OverallAssessment where
  total_threads : Nat
  overall_risk_level : RiskLevel
  executive_summary : String
  pattern_summary : List (String × Nat × RiskLevel)
  top_threats : List SuspiciousThread
deriving DecidableEq, Repr

/-- The `AnalysisResult` record of src/frontend/src/types/index.ts
(lines 65-72): every field is optional in the source. -/
structure AnalysisResult where
  frequent_pairs : Option PatternAnalysis
  round_amounts : Option PatternAnalysis
  high_activity_periods : Option PatternAnalysis
  repeated_amounts : Option PatternAnalysis
  quick_successive : Option PatternAnalysis
  overall_assessment : Option OverallAssessment
deriving DecidableEq, Repr

/-!
## Presentation-layer severity thresholds

src/frontend/src/components/AIAnalysis.tsx holds two concatenated
components; the second (PatternAnalysis) renders the raw miner output and
computes a risk badge per match locally.
-/

/-- Severity of a frequent pair in the presentation layer, from
renderFrequentPairs (AIAnalysis.tsx lines 537-539):
`pair.transaction_count >= 8 ? 'high' : pair.transaction_count >= 5 ?
'medium' : 'low'`. -/
def frequentPairSeverity (transactionCount : Nat) : RiskLevel :=
  if 8 ≤ transactionCount then .high
  else if 5 ≤ transactionCount then .medium
  else .low

/-- Severity of a high-activity period in the presentation layer, from
renderHighActivityPeriods (AIAnalysis.tsx lines 640-642):
`period.transaction_count >= 20 ? 'high' : period.transaction_count >= 10 ?
'medium' : 'low'`. -/
def highActivitySeverity (transactionCount : Nat) : RiskLevel :=
  if 20 ≤ transactionCount then .high
  else if 10 ≤ transactionCount then .medium
  else .low

/-- Severity of a quick-successive transaction in the presentation layer,
from renderQuickSuccessive (AIAnalysis.tsx lines 764-767):
`tx.time_diff < 60 ? 'high' : tx.time_diff < 180 ? 'medium' : 'low'`. -/
def quickSuccessiveSeverity (timeDiff : ℚ) : RiskLevel :=
  if timeDiff < 60 then .high
  else if timeDiff < 180 then .medium
  else .low

/-!
## Degradation notices in the AI-analysis view

startAnalysis (AIAnalysis.tsx lines 18-47) inspects the progressive-analysis
response flags in a fixed if/else-if chain and stores at most one message in
the single error state, which the view renders as one notice.
-/

/-- The flag-to-notice logic of startAnalysis (AIAnalysis.tsx lines 28-34):
`if (response.mock) ... else if (response.partial) ... else if
(response.cached) ...`.  The single React error state is modelled as an
`Option String`: at most one notice is ever shown. -/
def analysisNotice (m p c : Bool) : Option String :=
  if m then some "Using mock analysis - configure GEMINI_API_KEY for real AI analysis"
  else if p then some "Using cached analysis due to processing limitations"
  else if c then some "Using cached analysis from previous run"
  else none

/-- C3: for every frequent-pair match the presentation layer assigns
severity from the transaction count alone: high exactly when the count is
at least 8, medium exactly when it is at least 5 and below 8, and low
exactly when it is below 5 (renderFrequentPairs, AIAnalysis.tsx 537-539;
the classification lives in the consuming view, not in a miner). -/
theorem frequentPairSeverity_thresholds (c : Nat) :
    (frequentPairSeverity c = .high ↔ 8 ≤ c) ∧
    (frequentPairSeverity c = .medium ↔ 5 ≤ c ∧ c < 8) ∧
    (frequentPairSeverity c = .low ↔ c < 5) := by
  refine ⟨?_, ?_, ?_⟩ <;>
    (unfold frequentPairSeverity; split_ifs with h1 h2 <;> simp <;> omega)

/-- C4: for every high-activity period the presentation layer assigns
severity from the window transaction count alone: high exactly when the
count is at least 20, medium exactly when it is at least 10 and below 20,
and low exactly when it is below 10 (renderHighActivityPeriods,
AIAnalysis.tsx 640-642; these thresholds appear only in this view). -/
theorem highActivitySeverity_thresholds (c : Nat) :
    (highActivitySeverity c = .high ↔ 20 ≤ c) ∧
    (highActivitySeverity c = .medium ↔ 10 ≤ c ∧ c < 20) ∧
    (highActivitySeverity c = .low ↔ c < 10) := by
  refine ⟨?_, ?_, ?_⟩ <;>
    (unfold highActivitySeverity; split_ifs with h1 h2 <;> simp <;> omega)

/-- C9: for every quick-successive transaction the rendered risk badge is
high exactly when time_diff < 60 seconds, medium exactly when
60 ≤ time_diff < 180 seconds, and low exactly when time_diff ≥ 180 seconds
(renderQuickSuccessive, AIAnalysis.tsx 764-767) — a third presentation-layer
threshold family beyond the two the spec lists. -/
theorem quickSuccessiveSeverity_thresholds (d : ℚ) :
    (quickSuccessiveSeverity d = .high ↔ d < 60) ∧
    (quickSuccessiveSeverity d = .medium ↔ 60 ≤ d ∧ d < 180) ∧
    (quickSuccessiveSeverity d = .low ↔ 180 ≤ d) := by
  refine ⟨?_, ?_, ?_⟩ <;>
    (unfold quickSuccessiveSeverity; split_ifs with h1 h2 <;> simp <;>
      first
        | linarith
        | (constructor <;> linarith)
        | (intro hq; linarith))

/-- C10: the AI-analysis view surfaces exactly one notice per response,
chosen with the fixed precedence mock over partial over cached; a response
with only cached = true still yields a user-visible notice, and with no flag
set no notice is shown (startAnalysis, AIAnalysis.tsx 28-34). -/
theorem analysisNotice_precedence (p c : Bool) :
    analysisNotice true p c =
      some "Using mock analysis - configure GEMINI_API_KEY for real AI analysis" ∧
    analysisNotice false true c =
      some "Using cached analysis due to processing limitations" ∧
    analysisNotice false false true =
      some "Using cached analysis from previous run" ∧
    analysisNotice false false false = none := by
  refine ⟨rfl, rfl, rfl, rfl⟩

/-!
## The API client and its response envelope

src/unnamed/part_000 is the frontend API service (services/api.ts).  Its
operations and their declared result types are embedded below; the string
maps of the source are modelled as association lists.
-/

/-- The `FrequentPair` record of src/frontend/src/types/index.ts
(lines 74-86); timestamps as integer epoch seconds. -/
structure FrequentPair where
  sender_id : Nat
  receiver_id : Nat
  sender_name : String
  receiver_name : String
  transaction_count : Nat
  total_amount : ℚ
  average_amount : ℚ
  amount_std : ℚ
  first_transaction : Int
  last_transaction : Int
  sample_transactions : List Transaction
deriving DecidableEq, Repr

/-- The `RoundAmountTransaction` record of src/frontend/src/types/index.ts
(lines 88-95). -/
structure RoundAmountTransaction where
  transaction_id : Nat
  user_name : String
  reciever_name : String
  amount : ℚ
  created_at : Int
  remarks : String
deriving DecidableEq, Repr

/-- The `HighActivityPeriod` record of src/frontend/src/types/index.ts
(lines 97-103). -/
structure HighActivityPeriod where
  time_period : String
  transaction_count : Nat
  unique_users : Nat
  total_amount : ℚ
  sample_transactions : List Transaction
deriving DecidableEq, Repr

/-- The `RepeatedAmount` record of src/frontend/src/types/index.ts
(lines 105-111). -/
structure RepeatedAmount where
  amount : ℚ
  frequency : Nat
  unique_senders : Nat
  unique_receivers : Nat
  sample_transactions : List Transaction
deriving DecidableEq, Repr

/-- The `QuickTransaction` record of src/frontend/src/types/index.ts
(lines 113-120). -/
structure QuickTransaction where
  transaction_id : Nat
  user_name : String
  reciever_name : String
  amount : ℚ
  time_diff : ℚ
  created_at : Int
deriving DecidableEq, Repr

/-- The `PatternData` record of src/frontend/src/types/index.ts
(lines 122-128). -/
structure PatternData where
  frequent_pairs : List FrequentPair
  round_amounts : List RoundAmountTransaction
  high_activity_periods : List HighActivityPeriod
  repeated_amounts : List RepeatedAmount
  quick_successive : List QuickTransaction
deriving DecidableEq, Repr

/-- The `SummaryStats` record of src/frontend/src/types/index.ts
(lines 130-143). -/
structure SummaryStats where
  total_transactions : Nat
  unique_users : Nat
  unique_receivers : Nat
  total_amount : ℚ
  average_amount : ℚ
  date_range : String × String
  payment_statuses : List (String × Nat)
  top_users_by_transaction_count : List (String × Nat)
  top_amounts : List (String × Nat)
deriving DecidableEq, Repr

/-- The inline payload of `apiService.getThreads`
(src/unnamed/part_000 lines 116-124): threads, total count and the
high/medium/low risk distribution. -/
structure ThreadsData where
  threads : List SuspiciousThread
  total_count : Nat
  risk_distribution : Nat × Nat × Nat
deriving DecidableEq, Repr

/-- The inline payload of `apiService.uploadFile`
(src/unnamed/part_000 line 130). -/
structure UploadData where
  file_path : String
deriving DecidableEq, Repr

/-- The inline payload of `apiService.getCurrentFile`
(src/unnamed/part_000 line 140). -/
structure CurrentFileData where
  file_path : Option String
  using_default : Bool
deriving DecidableEq, Repr

/-- The inline result of `apiService.healthCheck`
(src/unnamed/part_000 line 86): a bare object, not the envelope. -/
structure HealthStatus where
  status : String
  gemini_configured : Bool
deriving DecidableEq, Repr

/-- The `ApiResponse<T>` envelope of src/frontend/src/types/index.ts
(lines 145-153).  The optional source fields `cached?`, `mock?`, `partial?`
and `message?` are `Option`s; `partialFlag` stands for the source field
named `partial`. -/
structure ApiResponse (T : Type) where
  success : Bool
  data : T
  timestamp : String
  cached : Option Bool
  mock : Option Bool
  partialFlag : Option Bool
  message : Option String

/-- The operations of `apiService` (src/unnamed/part_000 lines 84-144), in
source order. -/
inductive ApiOp where
  | healthCheck
  | getSummary
  | getPatterns
  | analyzePatterns
  | analyzePatternsProgressive
  | getThreads
  | uploadFile
  | getCurrentFile
deriving DecidableEq, Repr

/-- The declared result type of each `apiService` operation, read off the
source return-type annotations (src/unnamed/part_000 lines 86-143): every
operation but the health check resolves to `ApiResponse` of its payload. -/
def ApiOp.resultType : ApiOp → Type
  | .healthCheck => HealthStatus
  | .getSummary => ApiResponse SummaryStats
  | .getPatterns => ApiResponse PatternData
  | .analyzePatterns => ApiResponse AnalysisResult
  | .analyzePatternsProgressive => ApiResponse AnalysisResult
  | .getThreads => ApiResponse ThreadsData
  | .uploadFile => ApiResponse UploadData
  | .getCurrentFile => ApiResponse CurrentFileData

/-- C5: every core operation of the API service — summary, patterns,
analyze, progressive analyze, threads, upload and current-file, that is,
every operation except the health check — resolves to the
`{ success, data, timestamp, cached?, mock?, partial?, message? }` envelope
around its payload, so degradation metadata travels with the payload
(src/unnamed/part_000 lines 92-144; types/index.ts lines 145-153). -/
theorem apiService_core_ops_enveloped (op : ApiOp) (h : op ≠ ApiOp.healthCheck) :
    ∃ T : Type, op.resultType = ApiResponse T := by
  cases op
  case healthCheck => exact absurd rfl h
  all_goals exact ⟨_, rfl⟩

/-- The envelope theorem applied to a concrete core operation. -/
theorem apiService_core_ops_enveloped_witness :
    ∃ T : Type, ApiOp.resultType ApiOp.getSummary = ApiResponse T :=
  apiService_core_ops_enveloped ApiOp.getSummary (by decide)

/-!
## Aggregation of per-type analyses

The aggregation function lives in the backend (llm_analyzer.py), which is
not part of the repository snapshot; it is modelled from §4.2 of the spec.
-/

/-- The five pattern types (spec §2; types/index.ts AnalysisResult keys). -/
inductive PatternType where
  | frequentPairs
  | roundAmounts
  | highActivityPeriods
  | repeatedAmounts
  | quickSuccessive
deriving DecidableEq, Repr

/-- All five pattern types, in the order the source lists them. -/
def PatternType.all : List PatternType :=
  [.frequentPairs, .roundAmounts, .highActivityPeriods, .repeatedAmounts, .quickSuccessive]

/-- The string key of a pattern type, as in types/index.ts. -/
def PatternType.key : PatternType → String
  | .frequentPairs => "frequent_pairs"
  | .roundAmounts => "round_amounts"
  | .highActivityPeriods => "high_activity_periods"
  | .repeatedAmounts => "repeated_amounts"
  | .quickSuccessive => "quick_successive"

/-- Confidence used for ordering threats: the optional score, defaulting
to 0. -/
def confidenceOf (t : SuspiciousThread) : ℚ :=
  t.confidence_score.getD 0

/-- Threat priority: `a` before `b` when `a` has strictly higher severity,
or equal severity and at least the confidence (risk_level desc, then
confidence_score desc, spec §4.2 aggregation). -/
def threatBefore (a b : SuspiciousThread) : Prop :=
  b.risk_level.sev < a.risk_level.sev ∨
    (a.risk_level.sev = b.risk_level.sev ∧ confidenceOf b ≤ confidenceOf a)

instance : DecidableRel threatBefore := fun a b =>
  inferInstanceAs (Decidable (b.risk_level.sev < a.risk_level.sev ∨
    (a.risk_level.sev = b.risk_level.sev ∧ confidenceOf b ≤ confidenceOf a)))

/-- Modelled from the spec: `buildOverallAssessment(perTypeResults)` of
§4.2 (backend llm_analyzer.py, absent from the snapshot).  total_threads is
the sum of the per-type thread counts; overall_risk_level the highest
severity among the per-type risk levels; pattern_summary one entry per type
with its count and level; top_threats all threads across types ordered by
(risk_level desc, confidence desc) and capped at 10. -/
def buildOverallAssessment (r : PatternType → PatternAnalysis) : OverallAssessment :=
  { total_threads := (PatternType.all.map fun pt => (r pt).threads.length).sum
    overall_risk_level := (PatternType.all.map fun pt => (r pt).risk_level).foldr maxRisk .low
    executive_summary := "Aggregated assessment across the five pattern types"
    pattern_summary := PatternType.all.map fun pt =>
      (pt.key, (r pt).threads.length, (r pt).risk_level)
    top_threats :=
      (List.insertionSort threatBefore (PatternType.all.flatMap fun pt => (r pt).threads)).take 10 }

/-- The left argument is at most the `maxRisk` of the two. -/
theorem maxRisk_left_le (a b : RiskLevel) : a.sev ≤ (maxRisk a b).sev := by
  unfold maxRisk
  split <;> omega

/-- The right argument is at most the `maxRisk` of the two. -/
theorem maxRisk_right_le (a b : RiskLevel) : b.sev ≤ (maxRisk a b).sev := by
  unfold maxRisk
  split <;> omega

/-- `maxRisk` returns one of its arguments. -/
theorem maxRisk_eq_or (a b : RiskLevel) : maxRisk a b = a ∨ maxRisk a b = b := by
  unfold maxRisk
  split
  · exact Or.inl rfl
  · exact Or.inr rfl

/-- Every element of a list is at most the `maxRisk` fold over it. -/
theorem sev_le_foldr_maxRisk (l : List RiskLevel) (acc x : RiskLevel) (hx : x ∈ l) :
    x.sev ≤ (l.foldr maxRisk acc).sev := by
  induction l with
  | nil => cases hx
  | cons h t ih =>
      rw [List.foldr_cons]
      rcases List.mem_cons.mp hx with rfl | hm
      · exact maxRisk_left_le x _
      · exact le_trans (ih hm) (maxRisk_right_le h _)

/-- The `maxRisk` fold returns the accumulator or an element of the list. -/
theorem foldr_maxRisk_eq_acc_or_mem (l : List RiskLevel) (acc : RiskLevel) :
    l.foldr maxRisk acc = acc ∨ l.foldr maxRisk acc ∈ l := by
  induction l with
  | nil => exact Or.inl rfl
  | cons h t ih =>
      rw [List.foldr_cons]
      rcases maxRisk_eq_or h (t.foldr maxRisk acc) with he | he
      · rw [he]
        exact Or.inr (List.mem_cons_self h t)
      · rw [he]
        rcases ih with h2 | h2
        · exact Or.inl h2
        · exact Or.inr (List.mem_cons_of_mem h h2)

/-- C6: for every assignment of per-pattern-type results, the aggregated
assessment's overall_risk_level is the maximum severity among the five
per-type risk levels under high > medium > low (it dominates every per-type
level and is attained by one of them, or is `low` with every level `low`),
and total_threads is the sum of the five per-type thread counts (spec §4.2
aggregation, modelled from the spec). -/
theorem buildOverallAssessment_aggregation (r : PatternType → PatternAnalysis) :
    (buildOverallAssessment r).total_threads =
      (r .frequentPairs).threads.length + (r .roundAmounts).threads.length +
      (r .highActivityPeriods).threads.length + (r .repeatedAmounts).threads.length +
      (r .quickSuccessive).threads.length ∧
    (∀ pt : PatternType,
      ((r pt).risk_level).sev ≤ ((buildOverallAssessment r).overall_risk_level).sev) ∧
    (∃ pt : PatternType,
      (buildOverallAssessment r).overall_risk_level = (r pt).risk_level) := by
  refine ⟨?_, ?_, ?_⟩
  · simp [buildOverallAssessment, PatternType.all]
    omega
  · intro pt
    apply sev_le_foldr_maxRisk
    cases pt <;> simp [PatternType.all]
  · have hover : (buildOverallAssessment r).overall_risk_level =
        (PatternType.all.map fun pt => (r pt).risk_level).foldr maxRisk .low := rfl
    rcases foldr_maxRisk_eq_acc_or_mem
        (PatternType.all.map fun pt => (r pt).risk_level) .low with he | hm
    · refine ⟨.frequentPairs, ?_⟩
      have hle := sev_le_foldr_maxRisk (PatternType.all.map fun pt => (r pt).risk_level)
        .low ((r .frequentPairs).risk_level) (by simp [PatternType.all])
      rw [he] at hle
      rw [hover, he]
      cases hrl : (r .frequentPairs).risk_level <;> simp_all [RiskLevel.sev]
    · rcases List.mem_map.mp hm with ⟨pt, _, hpt⟩
      refine ⟨pt, ?_⟩
      rw [hover]
      exact hpt.symm

/-!
## Frequent-pair mining

The miner lives in the backend (data_processor.py), absent from the
snapshot; it is modelled from §4.1 of the spec ("group transactions by
unordered (sender, receiver) pair; include pairs with count ≥ 3").
-/

/-- The unordered (sender, receiver) key of a transaction: the identity
pair normalized so that the smaller id comes first (spec §4.1). -/
def pairKey (t : Transaction) : Nat × Nat :=
  if t.user_id ≤ t.reciever_id then (t.user_id, t.reciever_id)
  else (t.reciever_id, t.user_id)

/-- All transactions of the store carrying a given unordered pair key. -/
def pairGroup (txs : List Transaction) (k : Nat × Nat) : List Transaction :=
  txs.filter fun t => decide (pairKey t = k)

/-- The earliest timestamp of a nonempty list of transactions (0 for an
empty one, never reached by the miner). -/
def firstTimestamp (g : List Transaction) : Int :=
  match g.map (·.created_at) with
  | [] => 0
  | t :: ts => ts.foldl min t

/-- The latest timestamp of a nonempty list of transactions. -/
def lastTimestamp (g : List Transaction) : Int :=
  match g.map (·.created_at) with
  | [] => 0
  | t :: ts => ts.foldl max t

/-- Modelled from the spec: the `FrequentPair` emitted for one unordered
pair key and its transaction group (spec §3, §4.1): count, total and
average amount, first/last timestamp, and a bounded sample (capped at 5).
The population standard deviation the source also emits is irrational in
general and is not modelled (no claim concerns it); it is set to 0. -/
def mkFrequentPair (k : Nat × Nat) (g : List Transaction) : FrequentPair :=
  { sender_id := k.1
    receiver_id := k.2
    sender_name := (g.head?.map (·.user_name)).getD ""
    receiver_name := (g.head?.map (·.reciever_name)).getD ""
    transaction_count := g.length
    total_amount := (g.map (·.amount)).sum
    average_amount := (g.map (·.amount)).sum / (g.length : ℚ)
    amount_std := 0
    first_transaction := firstTimestamp g
    last_transaction := lastTimestamp g
    sample_transactions := g.take 5 }

/-- Modelled from the spec: frequent-pair mining (spec §4.1, backend
data_processor.py, absent from the snapshot): group the store by unordered
(sender, receiver) pair and emit a `FrequentPair` for every pair whose
group has at least 3 transactions, in first-appearance order of the keys. -/
def findFrequentPairs (txs : List Transaction) : List FrequentPair :=
  ((txs.map pairKey).dedup).filterMap fun k =>
    let g := pairGroup txs k
    if 3 ≤ g.length then some (mkFrequentPair k g) else none

/-- C7: every pair emitted by frequent-pair mining has transaction count
at least 3, and its total_amount is exactly the sum of the amounts of the
transactions carrying that pair's key (spec §4.1, §8; modelled from the
spec). -/
theorem findFrequentPairs_sound (txs : List Transaction) (p : FrequentPair)
    (hp : p ∈ findFrequentPairs txs) :
    3 ≤ p.transaction_count ∧
    p.total_amount =
      ((txs.filter fun t => decide (pairKey t = (p.sender_id, p.receiver_id))).map
        (·.amount)).sum := by
  rcases List.mem_filterMap.mp hp with ⟨k, _, hk⟩
  by_cases h3 : 3 ≤ (pairGroup txs k).length
  · rw [if_pos h3] at hk
    cases hk
    refine ⟨h3, ?_⟩
    show ((pairGroup txs k).map (·.amount)).sum = _
    have hkk : ((mkFrequentPair k (pairGroup txs k)).sender_id,
        (mkFrequentPair k (pairGroup txs k)).receiver_id) = k := rfl
    rw [hkk]
    rfl
  · rw [if_neg h3] at hk
    cases hk

/-- A transaction of the spec §8 scenario: user 1 pays user 2 an amount of
1000 at the given time. -/
def scenarioTx (i : Nat) (ts : Int) : Transaction :=
  { transaction_id := i, user_id := 1, user_name := "A", user_username := "a",
    user_mobile := 0, reciever_id := 2, reciever_name := "B", reciever_mobile := 0,
    amount := 1000, total_amount := 1000, currency := "INR", settleable_amount := 1000,
    minimum_amount := 0, order_status := "done", payment_status := "paid",
    refund_status := "none", bill_type := "p2p", pg_transaction_id := "",
    specific_step_transaction_id := none, payment_vendor := "", utr_number := "",
    image := none, remarks := "", reference_id := "", created_at := ts, updated_at := ts }

/-- The three-transaction scenario of spec §8: users 1 and 2 exchange 1000
three times, two minutes apart. -/
def scenarioPairTxs : List Transaction :=
  [scenarioTx 1 0, scenarioTx 2 120, scenarioTx 3 240]

/-- The frequent-pair soundness theorem applied to the spec §8 scenario. -/
theorem findFrequentPairs_sound_witness :
    3 ≤ (mkFrequentPair (1, 2) (pairGroup scenarioPairTxs (1, 2))).transaction_count ∧
    (mkFrequentPair (1, 2) (pairGroup scenarioPairTxs (1, 2))).total_amount =
      ((scenarioPairTxs.filter fun t => decide (pairKey t =
        ((mkFrequentPair (1, 2) (pairGroup scenarioPairTxs (1, 2))).sender_id,
         (mkFrequentPair (1, 2) (pairGroup scenarioPairTxs (1, 2))).receiver_id))).map
        (·.amount)).sum :=
  findFrequentPairs_sound scenarioPairTxs _ (by
    have h : findFrequentPairs scenarioPairTxs =
        [mkFrequentPair (1, 2) (pairGroup scenarioPairTxs (1, 2))] := rfl
    rw [h]
    exact List.mem_cons_self _ _)

/-!
## Quick-succession mining

The miner lives in the backend (data_processor.py), absent from the
snapshot; it is modelled from §4.1 of the spec ("sort transactions by
(actor, timestamp); for each consecutive pair sharing the same actor,
compute elapsed seconds; flag if elapsed < 300s; the very first transaction
per actor has no predecessor and is never flagged").  The actor grouping
key is the sender (`user_id`).
-/

/-- Timestamp order on transactions. -/
def tsLE (a b : Transaction) : Prop :=
  a.created_at ≤ b.created_at

instance : DecidableRel tsLE := fun a b =>
  inferInstanceAs (Decidable (a.created_at ≤ b.created_at))

instance : IsTotal Transaction tsLE :=
  ⟨fun a b => Int.le_total a.created_at b.created_at⟩

instance : IsTrans Transaction tsLE :=
  ⟨fun _ _ _ h1 h2 => le_trans h1 h2⟩

/-- The distinct actors (senders) of the store, in first-appearance
order. -/
def actors (txs : List Transaction) : List Nat :=
  (txs.map (·.user_id)).dedup

/-- One actor's transactions, sorted by timestamp (spec §4.1: sort by
(actor, timestamp); the sort is stable, keeping results deterministic). -/
def actorGroup (txs : List Transaction) (a : Nat) : List Transaction :=
  List.insertionSort tsLE (txs.filter fun t => decide (t.user_id = a))

/-- The `QuickTransaction` built when `c` follows `prev` too quickly:
time_diff is the elapsed seconds since the predecessor. -/
def toQuick (prev c : Transaction) : QuickTransaction :=
  { transaction_id := c.transaction_id
    user_name := c.user_name
    reciever_name := c.reciever_name
    amount := c.amount
    time_diff := ((c.created_at - prev.created_at : Int) : ℚ)
    created_at := c.created_at }

/-- Flags within one sorted actor group, walking consecutive pairs: each
transaction is compared to its immediate predecessor and flagged when the
elapsed time is below the 300-second ceiling (spec §4.1). -/
def quickFlagsAux : Transaction → List Transaction → List QuickTransaction
  | _, [] => []
  | prev, c :: rest =>
      (if c.created_at - prev.created_at < 300 then [toQuick prev c] else []) ++
        quickFlagsAux c rest

/-- Flags of one sorted actor group: the head has no predecessor and only
serves as the first comparison point. -/
def quickFlagsGroup : List Transaction → List QuickTransaction
  | [] => []
  | h :: t => quickFlagsAux h t

/-- Modelled from the spec: quick-succession mining (spec §4.1, backend
data_processor.py, absent from the snapshot): per actor, flag every
transaction whose elapsed time since the same actor's immediately
preceding transaction is below 300 seconds. -/
def findQuickSuccessive (txs : List Transaction) : List QuickTransaction :=
  (actors txs).flatMap fun a => quickFlagsGroup (actorGroup txs a)

/-- Every flag produced by the auxiliary walk stems from a transaction of
the walked list (never from the starting predecessor). -/
theorem mem_quickFlagsAux (prev : Transaction) (l : List Transaction)
    (q : QuickTransaction) (hq : q ∈ quickFlagsAux prev l) :
    ∃ c ∈ l, q.transaction_id = c.transaction_id := by
  induction l generalizing prev with
  | nil => cases hq
  | cons c rest ih =>
      rw [quickFlagsAux, List.mem_append] at hq
      rcases hq with hin | hin
      · refine ⟨c, List.mem_cons_self c rest, ?_⟩
        by_cases hc : c.created_at - prev.created_at < 300
        · rw [if_pos hc] at hin
          rcases List.mem_singleton.mp hin with rfl
          rfl
        · rw [if_neg hc] at hin
          cases hin
      · rcases ih c hin with ⟨d, hd, hdq⟩
        exact ⟨d, List.mem_cons_of_mem c hd, hdq⟩

/-- Along a timestamp-ascending chain, every flag of the auxiliary walk
has nonnegative time_diff. -/
theorem quickFlagsAux_nonneg (prev : Transaction) (l : List Transaction)
    (hc : List.Chain tsLE prev l) (q : QuickTransaction)
    (hq : q ∈ quickFlagsAux prev l) : 0 ≤ q.time_diff := by
  induction l generalizing prev with
  | nil => cases hq
  | cons c rest ih =>
      rcases hc with _ | ⟨hpc, hrest⟩
      rw [quickFlagsAux, List.mem_append] at hq
      rcases hq with hin | hin
      · by_cases hlt : c.created_at - prev.created_at < 300
        · rw [if_pos hlt] at hin
          rcases List.mem_singleton.mp hin with rfl
          show (0 : ℚ) ≤ ((c.created_at - prev.created_at : Int) : ℚ)
          have hd : (0 : Int) ≤ c.created_at - prev.created_at := by
            have := hpc
            unfold tsLE at this
            omega
          exact_mod_cast hd
        · rw [if_neg hlt] at hin
          cases hin
      · exact ih c hrest hin

/-- A sorted list forms a chain above any lower bound of its elements. -/
theorem chain_of_sorted (prev : Transaction) (l : List Transaction)
    (hall : ∀ x ∈ l, tsLE prev x) (hs : l.Sorted tsLE) :
    List.Chain tsLE prev l := by
  induction l generalizing prev with
  | nil => exact List.Chain.nil
  | cons c rest ih =>
      rw [List.sorted_cons] at hs
      exact List.Chain.cons (hall c (List.mem_cons_self c rest)) (ih c hs.1 hs.2)

/-- C8: every transaction flagged by quick-succession mining has a
nonnegative time_diff, and stems from the tail of its actor's
timestamp-sorted group — the first transaction of an actor group has no
predecessor and is never flagged (spec §4.1, §8; modelled from the
spec). -/
theorem findQuickSuccessive_sound (txs : List Transaction) (q : QuickTransaction)
    (hq : q ∈ findQuickSuccessive txs) :
    0 ≤ q.time_diff ∧
    ∃ a ∈ actors txs, ∃ c ∈ (actorGroup txs a).tail,
      q.transaction_id = c.transaction_id := by
  rcases List.mem_flatMap.mp hq with ⟨a, ha, hmem⟩
  have hsorted : (actorGroup txs a).Sorted tsLE :=
    List.sorted_insertionSort tsLE _
  rcases hg : actorGroup txs a with _ | ⟨hd, tl⟩
  · rw [hg] at hmem
    cases hmem
  · rw [hg] at hmem hsorted
    rw [quickFlagsGroup] at hmem
    rw [List.sorted_cons] at hsorted
    constructor
    · exact quickFlagsAux_nonneg hd tl (chain_of_sorted hd tl hsorted.1 hsorted.2) q hmem
    · rcases mem_quickFlagsAux hd tl q hmem with ⟨c, hcl, hcq⟩
      refine ⟨a, ha, c, ?_, hcq⟩
      rw [hg]
      exact hcl

/-- The quick-succession soundness theorem applied to the spec §8
scenario: the second transaction, 120 seconds after the first, is
flagged. -/
theorem findQuickSuccessive_sound_witness :
    0 ≤ (toQuick (scenarioTx 1 0) (scenarioTx 2 120)).time_diff ∧
    ∃ a ∈ actors scenarioPairTxs, ∃ c ∈ (actorGroup scenarioPairTxs a).tail,
      (toQuick (scenarioTx 1 0) (scenarioTx 2 120)).transaction_id = c.transaction_id :=
  findQuickSuccessive_sound scenarioPairTxs _ (by
    have h : findQuickSuccessive scenarioPairTxs =
        [toQuick (scenarioTx 1 0) (scenarioTx 2 120),
         toQuick (scenarioTx 2 120) (scenarioTx 3 240)] := rfl
    rw [h]
    exact List.mem_cons_self _ _)

/-!
## The LLM analysis orchestrator

The orchestrator lives in the backend (llm_analyzer.py / main.py), absent
from the snapshot; it is modelled from §4.2 of the spec: per pattern type,
(1) serve an unexpired cache entry marked `cached`; (2) with no model
credential, synthesize a deterministic mock marked `mock`; (3-4) otherwise
invoke the model, and on timeout, transport failure or a rejected
(malformed) response fall back to a stale cache entry marked `partial`, or
to the mock marked `mock`; (5) parse the successful verdict; (6) cache only
successful live results.  The whole pipeline is a total function: no path
raises.
-/

/-- The provenance mark of one pattern type's analysis: `stale` stands for
the spec's `partial` mark (a stale-but-valid cached verdict served after a
failed live call). -/
inductive Mark where
  | fresh
  | cached
  | mock
  | stale
deriving DecidableEq, Repr

/-- One cache entry: the stored analysis and whether its TTL is still
running (spec §3 CacheEntry; expiry is modelled as a flag rather than
clock arithmetic). -/
structure CacheEntry where
  analysis : PatternAnalysis
  unexpired : Bool

/-- The analysis cache for one dataset fingerprint: at most one entry per
pattern type (spec §3: key = (fingerprint, pattern_type)). -/
def Cache : Type :=
  PatternType → Option CacheEntry

/-- The outcome of one external model call: a parsed verdict, or one of
the three external-call error modes of spec §7. -/
inductive CallOutcome where
  | ok (v : PatternAnalysis)
  | timeout
  | transportFailure
  | malformed

/-- Modelled from the spec: the deterministic mock `PatternAnalysis`
synthesized from the raw match statistics when no credential is configured
(spec §4.2 step 2); risk heuristics mirror count thresholds, threads stay
empty. -/
def mockAnalysis (pt : PatternType) (matchCount : Nat) : PatternAnalysis :=
  { threads := []
    risk_level :=
      if 10 ≤ matchCount then .high else if 5 ≤ matchCount then .medium else .low
    summary := "Mock analysis of " ++ pt.key ++ " derived from raw match statistics"
    key_insights := none }

/-- Modelled from the spec: the fallback of §4.2 step 4 — the most recent
cache entry for the pattern type, even expired, marked `partial` (stale);
with none, the mock heuristic marked `mock`. -/
def analyzeFallback (cache : Cache) (pt : PatternType) (matchCount : Nat) :
    PatternAnalysis × Mark :=
  match cache pt with
  | some e => (e.analysis, .stale)
  | none => (mockAnalysis pt matchCount, .mock)

/-- Modelled from the spec: steps 2-5 of §4.2, reached on a cache miss.
Without a credential the mock is served; with one the call outcome is
inspected, a verdict is served fresh, and every error mode resolves
through the fallback. -/
def analyzeCall (gemini : Bool) (cache : Cache) (pt : PatternType)
    (matchCount : Nat) (oc : CallOutcome) : PatternAnalysis × Mark :=
  if gemini then
    match oc with
    | .ok v => (v, .fresh)
    | .timeout => analyzeFallback cache pt matchCount
    | .transportFailure => analyzeFallback cache pt matchCount
    | .malformed => analyzeFallback cache pt matchCount
  else (mockAnalysis pt matchCount, .mock)

/-- Modelled from the spec: `analyze(patternType, matches)` of §4.2 for one
pattern type — step 1 serves an unexpired cache entry marked `cached`,
everything else goes through `analyzeCall`.  Total: every input resolves
to a result. -/
def analyzeOne (gemini : Bool) (cache : Cache) (pt : PatternType)
    (matchCount : Nat) (oc : CallOutcome) : PatternAnalysis × Mark :=
  match cache pt with
  | some e =>
      if e.unexpired then (e.analysis, .cached)
      else analyzeCall gemini cache pt matchCount oc
  | none => analyzeCall gemini cache pt matchCount oc

/-- Modelled from the spec: step 6 of §4.2 — only a fresh successful
result is written back to the cache under its pattern type. -/
def updateCache (cache : Cache) (pt : PatternType) (r : PatternAnalysis × Mark) :
    Cache :=
  if r.2 = Mark.fresh then
    fun q => if q = pt then some ⟨r.1, true⟩ else cache q
  else cache

/-- Modelled from the spec: one full analysis run over all five pattern
types (spec §4.2/§4.3): each type's match count and call outcome resolves
through `analyzeOne` against the shared cache. -/
def analyzeAll (gemini : Bool) (cache : Cache) (matchCount : PatternType → Nat)
    (oc : PatternType → CallOutcome) : PatternType → PatternAnalysis × Mark :=
  fun pt => analyzeOne gemini cache pt (matchCount pt) (oc pt)

/-- Assembling the run into the `AnalysisResult` shape of types/index.ts:
every pattern-type field and the overall assessment are populated. -/
def assembleAnalysisResult (f : PatternType → PatternAnalysis) : AnalysisResult :=
  { frequent_pairs := some (f .frequentPairs)
    round_amounts := some (f .roundAmounts)
    high_activity_periods := some (f .highActivityPeriods)
    repeated_amounts := some (f .repeatedAmounts)
    quick_successive := some (f .quickSuccessive)
    overall_assessment := some (buildOverallAssessment f) }

/-- An `AnalysisResult` is complete when all five pattern-type analyses
and the overall assessment are present. -/
def AnalysisResult.complete (r : AnalysisResult) : Prop :=
  r.frequent_pairs.isSome = true ∧ r.round_amounts.isSome = true ∧
  r.high_activity_periods.isSome = true ∧ r.repeated_amounts.isSome = true ∧
  r.quick_successive.isSome = true ∧ r.overall_assessment.isSome = true

/-- C1: with no model credential configured (gemini_configured = false) and
no cache entry for the dataset (in mock mode nothing is ever cached, so a
dataset analyzed without a credential has none), an analysis run resolves —
the model is total, no error path exists — to a complete `AnalysisResult`
whose five pattern-type analyses are all the deterministic mock, every one
marked `mock`; and the run writes nothing back to the cache (spec §4.2
step 2, §8 fallback guarantee; modelled from the spec). -/
theorem analyze_mock_fallback (cache : Cache) (matchCount : PatternType → Nat)
    (oc : PatternType → CallOutcome) (hcache : ∀ pt, cache pt = none) :
    (assembleAnalysisResult fun pt =>
      (analyzeAll false cache matchCount oc pt).1).complete ∧
    (∀ pt, analyzeAll false cache matchCount oc pt =
      (mockAnalysis pt (matchCount pt), Mark.mock)) ∧
    (∀ pt, updateCache cache pt (analyzeAll false cache matchCount oc pt) = cache) := by
  have hone : ∀ pt, analyzeAll false cache matchCount oc pt =
      (mockAnalysis pt (matchCount pt), Mark.mock) := by
    intro pt
    unfold analyzeAll analyzeOne
    rw [hcache pt]
    rfl
  refine ⟨⟨rfl, rfl, rfl, rfl, rfl, rfl⟩, hone, ?_⟩
  intro pt
  rw [hone pt]
  rfl

/-- The mock-fallback theorem applied to an empty cache, zero match
statistics and timing-out outcomes. -/
theorem analyze_mock_fallback_witness :
    (assembleAnalysisResult fun pt =>
      (analyzeAll false (fun _ => none) (fun _ => 0) (fun _ => CallOutcome.timeout) pt).1).complete ∧
    (∀ pt, analyzeAll false (fun _ => none) (fun _ => 0) (fun _ => CallOutcome.timeout) pt =
      (mockAnalysis pt 0, Mark.mock)) ∧
    (∀ pt, updateCache (fun _ => none) pt
      (analyzeAll false (fun _ => none) (fun _ => 0) (fun _ => CallOutcome.timeout) pt) =
      (fun _ => none)) :=
  analyze_mock_fallback (fun _ => none) (fun _ => 0) (fun _ => CallOutcome.timeout)
    (fun _ => rfl)

/-- C2: with a credential configured but no unexpired cache entry for a
pattern type (so a live call is attempted), an external-call error —
timeout, transport failure or malformed model response — never fails the
run: it still resolves (the model is total) to a complete
`AnalysisResult`, and the affected pattern type carries a degraded result
marked `mock` or `stale` (the spec's `partial`) (spec §4.2 steps 4-5, §7;
modelled from the spec). -/
theorem analyze_error_degrades (cache : Cache) (matchCount : PatternType → Nat)
    (oc : PatternType → CallOutcome) (pt : PatternType)
    (hmiss : ∀ e, cache pt = some e → e.unexpired = false)
    (herr : oc pt = CallOutcome.timeout ∨ oc pt = CallOutcome.transportFailure ∨
      oc pt = CallOutcome.malformed) :
    (assembleAnalysisResult fun q =>
      (analyzeAll true cache matchCount oc q).1).complete ∧
    ((analyzeAll true cache matchCount oc pt).2 = Mark.mock ∨
     (analyzeAll true cache matchCount oc pt).2 = Mark.stale) := by
  refine ⟨⟨rfl, rfl, rfl, rfl, rfl, rfl⟩, ?_⟩
  have hfb : (analyzeFallback cache pt (matchCount pt)).2 = Mark.mock ∨
      (analyzeFallback cache pt (matchCount pt)).2 = Mark.stale := by
    unfold analyzeFallback
    cases cache pt
    · exact Or.inl rfl
    · exact Or.inr rfl
  have hcall : analyzeCall true cache pt (matchCount pt) (oc pt) =
      analyzeFallback cache pt (matchCount pt) := by
    rcases herr with he | he | he <;> (unfold analyzeCall; rw [he]; rfl)
  show (analyzeOne true cache pt (matchCount pt) (oc pt)).2 = Mark.mock ∨
    (analyzeOne true cache pt (matchCount pt) (oc pt)).2 = Mark.stale
  unfold analyzeOne
  split
  · rename_i e heq
    rw [hmiss e heq]
    simp only [Bool.false_eq_true, if_false]
    rw [hcall]
    exact hfb
  · rw [hcall]
    exact hfb

/-- The degradation theorem applied to an empty cache, a timing-out call
on the quick-succession type. -/
theorem analyze_error_degrades_witness :
    (assembleAnalysisResult fun q =>
      (analyzeAll true (fun _ => none) (fun _ => 0) (fun _ => CallOutcome.timeout) q).1).complete ∧
    ((analyzeAll true (fun _ => none) (fun _ => 0) (fun _ => CallOutcome.timeout)
        PatternType.quickSuccessive).2 = Mark.mock ∨
     (analyzeAll true (fun _ => none) (fun _ => 0) (fun _ => CallOutcome.timeout)
        PatternType.quickSuccessive).2 = Mark.stale) :=
  analyze_error_degrades (fun _ => none) (fun _ => 0) (fun _ => CallOutcome.timeout)
    PatternType.quickSuccessive (fun _ h => Option.noConfusion h) (Or.inl rfl)
